import Mathlib

/-!
Verification of the client-side session/token lifecycle manager of the
ezapi frontend (src/lib/api/client.ts, src/lib/cookies.ts code found in
src/unnamed/part_001, and the auth store in src/lib/providers.tsx).

The embedding works at the level the inspector sees a token: a JWT string
is abstracted by the result of `decodeJWTPayload` on it.  `decodeJWTPayload`
itself is base64url plus JSON plumbing delegated to the browser (`atob`,
`JSON.parse`); a decode failure is modelled as `none`, a decoded payload by
its `exp` claim (`Option Int`, since the code only reads `payload.exp`).
Times are integers (seconds since epoch, `Math.floor(Date.now() / 1000)`).

Network interaction is modelled two ways, matching the two claim families:
* a sequential interpreter (`runF`) over a script of fetch results, for the
  Request Gateway claims, and
* a small-step machine (`ConcStep`) for the concurrent renewal-coalescing
  claims, where the in-flight refresh promise is explicit.
-/

namespace EzApi

/-- The decoded JWT payload, as consumed by the cookie helpers: only the
`exp` claim is ever read (`payload.exp`), and it may be absent. -/
structure JWTPayload where
  exp : Option Int
deriving DecidableEq, Repr

/-- A token string abstracted by its decode result: `none` models
`decodeJWTPayload` returning `null` (malformed token / parse error caught
inside the helper), `some p` a successfully decoded payload. -/
abbrev Tok := Option JWTPayload

/-- The cookie store: the `auth_token` and `refresh_token` cookies.
`none` means the cookie is absent (`getAuthToken` / `getRefreshToken`
returned `null`). -/
structure Store where
  authToken : Option Tok
  refreshToken : Option Tok
deriving DecidableEq, Repr

/-- Models `setAuthToken(token)`: overwrites the `auth_token` cookie. -/
def setAuthTokenS (st : Store) (t : Tok) : Store :=
  { st with authToken := some t }

/-- Models `setRefreshToken(token)`: overwrites the `refresh_token` cookie. -/
def setRefreshTokenS (st : Store) (t : Tok) : Store :=
  { st with refreshToken := some t }

/-- Models `removeAuthTokens()`: deletes both cookies unconditionally. -/
def removeAuthTokensS (_ : Store) : Store :=
  ⟨none, none⟩

/-- Models `isTokenExpiredOrExpiringSoon(token)` from src/unnamed/part_001
(lines 114-124): true when the token is absent, cannot be decoded, has no
truthy `exp` claim (note JS truthiness: `!payload.exp` is true for
`exp = 0`), or `payload.exp <= currentTime + bufferTime` with a two-minute
buffer (`bufferTime = 2 * 60`). -/
def isTokenExpiredOrExpiringSoonF (token : Option Tok) (now : Int) : Bool :=
  match token with
  | none => true
  | some tok =>
    match tok with
    | none => true
    | some payload =>
      match payload.exp with
      | none => true
      | some e => if e = 0 then true else decide (e ≤ now + 2 * 60)

/-- Models `isRefreshTokenValid()` from src/unnamed/part_001 (lines 127-136):
reads the refresh-token cookie; false when absent, undecodable or without a
truthy `exp` claim; otherwise `payload.exp > currentTime` (strict, no
buffer). -/
def isRefreshTokenValidF (st : Store) (now : Int) : Bool :=
  match st.refreshToken with
  | none => false
  | some tok =>
    match tok with
    | none => false
    | some payload =>
      match payload.exp with
      | none => false
      | some e => if e = 0 then false else decide (now < e)

/-! ## The standardized API response model (src/lib/api/types.ts) -/

/-- The `success` field of a response body as JavaScript sees it:
absent, present but not a boolean (`typeof !== "boolean"`), or a boolean. -/
inductive JsField
  | missing
  | nonBool
  | bool (b : Bool)
deriving DecidableEq, Repr

/-- The `error` envelope of an `ApiResponse`: `{ code, message, details }`. -/
structure ApiErrObj where
  code : String
  message : String
  details : Option String
deriving DecidableEq, Repr

/-- The `data` payload of an `AuthResponse`: the freshly minted token pair. -/
structure AuthData where
  accessToken : Tok
  refreshToken : Tok
deriving DecidableEq, Repr

/-- A parsed JSON response body, restricted to the fields the client reads:
`success`, `error` and (for auth endpoints) `data`. -/
structure ApiBody where
  success : JsField
  error : Option ApiErrObj
  data : Option AuthData
deriving DecidableEq, Repr

/-- The `ApiError` class thrown by the client: `(code, message, statusCode,
details)`. -/
structure ApiError where
  code : String
  message : String
  statusCode : Nat
  details : Option String
deriving DecidableEq, Repr

/-- Relevant members of the `ErrorCode` enum. -/
def networkErrorCode : String := "NETWORK_ERROR"

def invalidTokenCode : String := "INVALID_TOKEN"

def tokenExpiredCode : String := "TOKEN_EXPIRED"

/-- Thrown by `ensureValidToken` / `refreshToken` when no valid refresh
token is available (client.ts line 77). -/
def noValidRefreshError : ApiError :=
  ⟨invalidTokenCode, "No valid refresh token available", 401, none⟩

/-- Thrown by `request` when a token refresh attempt fails
(client.ts lines 121 and 164). -/
def sessionExpiredError : ApiError :=
  ⟨tokenExpiredCode, "Session expired. Please log in again.", 401, none⟩

/-- Thrown by `ensureValidToken` when the refresh response resolves without
`success && data` (client.ts line 97). -/
def refreshFailedError : ApiError :=
  ⟨tokenExpiredCode, "Failed to refresh token", 401, none⟩

/-- Thrown by `request` when a 2xx body lacks a boolean `success` flag
(client.ts line 185). -/
def invalidFormatError (status : Nat) : ApiError :=
  ⟨networkErrorCode, "Invalid response format from server", status, none⟩

/-- Placeholder result when the interpreter's fuel runs out; every theorem
below supplies enough fuel that this value is never reached. -/
def fuelExhaustedError : ApiError :=
  ⟨networkErrorCode, "fuel exhausted", 0, none⟩

/-- Validation of a 2xx response body, client.ts lines 181-198: the body is
successful only if it declares a boolean `success`; a missing or non-boolean
flag fails with `NETWORK_ERROR`, and `success: false` with an `error`
envelope fails with that error's code. -/
def validateSuccessBody (body : ApiBody) (status : Nat) : Except ApiError ApiBody :=
  match body.success with
  | JsField.missing => Except.error (invalidFormatError status)
  | JsField.nonBool => Except.error (invalidFormatError status)
  | JsField.bool b =>
    if b = false then
      match body.error with
      | some e => Except.error ⟨e.code, e.message, status, e.details⟩
      | none => Except.ok body
    else Except.ok body

/-! ## Sequential interpreter for `ApiClient.request` / `ensureValidToken`

The network is a script of fetch results consumed in order; the state also
logs the endpoint of every fetch that is issued, so "no renewal request was
made" is the absence of "/auth/refresh" in the log's growth.  This is the
single-caller (quiescent) semantics: `isRefreshing` is false at every
suspension point of a lone caller, so the coalescing fast path of
`ensureValidToken` (client.ts lines 70-73) can never trigger and the
`isRefreshing` flag writes are unobservable; the concurrent machine below
models them explicitly. -/

/-- The outcome of one `fetch`: the promise rejects (transport failure), or
a response arrives with a status, a status text, and a body that either
parses as JSON (`some`) or does not (`none`, `response.json()` throws). -/
inductive FetchResult
  | throwErr (message : String)
  | resp (status : Nat) (statusText : String) (body : Option ApiBody)
deriving DecidableEq, Repr

/-- Interpreter state: the cookie store, the remaining script of fetch
results, and the log of endpoints fetched so far. -/
structure CState where
  store : Store
  fetches : List FetchResult
  log : List String
deriving DecidableEq, Repr

/-- Issue one `fetch(url, config)`: consume the next scripted result and
log the endpoint.  An exhausted script behaves as a transport failure. -/
def doFetch (endpoint : String) (s : CState) : FetchResult × CState :=
  match s.fetches with
  | [] => (FetchResult.throwErr "no response available",
           { s with log := s.log ++ [endpoint] })
  | f :: rest => (f, { s with fetches := rest, log := s.log ++ [endpoint] })

/-- Which client routine is running: a `request(endpoint, options, isRetry)`
call or an `ensureValidToken()` call (they are mutually recursive in the
source; here they are the two branches of one fuel-indexed interpreter). -/
inductive Call
  | req (endpoint : String) (isRetry : Bool)
  | ensure
deriving DecidableEq, Repr

/-- The sequential semantics of `ApiClient.request` (client.ts 105-208) and
`ApiClient.ensureValidToken` (client.ts 69-103).  `Call.ensure` returns the
refresh response body on success where the source returns `void`; callers
only distinguish success from failure.  Fuel bounds the recursion
(retry depth is at most 3 in the source: request → ensure → refresh
request, then one retry which may refresh again). -/
def runF (now : Int) : Nat → Call → CState → Except ApiError ApiBody × CState
  | 0, _, s => (Except.error fuelExhaustedError, s)
  | fuel + 1, Call.req endpoint isRetry, s =>
    -- client.ts 112-124: pre-request token check, skipped for auth endpoints
    let pre : Except ApiError Unit × CState :=
      if endpoint ≠ "/auth/refresh" ∧ endpoint ≠ "/auth/login" ∧ endpoint ≠ "/auth/register" then
        if isTokenExpiredOrExpiringSoonF s.store.authToken now = true then
          match runF now fuel Call.ensure s with
          | (Except.ok _, s1) => (Except.ok (), s1)
          | (Except.error _, s1) =>
            (Except.error sessionExpiredError, { s1 with store := removeAuthTokensS s1.store })
        else (Except.ok (), s)
      else (Except.ok (), s)
    match pre with
    | (Except.error e, s1) => (Except.error e, s1)
    | (Except.ok _, s1) =>
      match doFetch endpoint s1 with
      | (FetchResult.throwErr msg, s2) =>
        -- fetch rejected: caught by the outer catch, statusCode 0
        (Except.error ⟨networkErrorCode, msg, 0, none⟩, s2)
      | (FetchResult.resp status statusText body, s2) =>
        if ¬ (200 ≤ status ∧ status < 300) then
          -- client.ts 139-178: !response.ok
          match body with
          | none =>
            -- client.ts 144-147: non-JSON error body
            (Except.error ⟨networkErrorCode,
              (if statusText = "" then "Network error occurred" else statusText),
              status, none⟩, s2)
          | some errorResponse =>
            if status = 401 ∧ isRetry = false ∧
                endpoint ≠ "/auth/refresh" ∧ endpoint ≠ "/auth/login" ∧
                endpoint ≠ "/auth/register" then
              -- client.ts 149-166: refresh the token and retry once
              match runF now fuel Call.ensure s2 with
              | (Except.ok _, s3) => runF now fuel (Call.req endpoint true) s3
              | (Except.error _, s3) =>
                (Except.error sessionExpiredError,
                 { s3 with store := removeAuthTokensS s3.store })
            else
              -- client.ts 168-178: standardized error
              match errorResponse.error with
              | some e => (Except.error ⟨e.code, e.message, status, e.details⟩, s2)
              | none =>
                (Except.error ⟨networkErrorCode, "An unexpected error occurred", status, none⟩, s2)
        else
          match body with
          | none =>
            -- 2xx body that fails to parse: response.json() throws, caught
            -- by the outer catch as a plain Error, statusCode 0
            (Except.error ⟨networkErrorCode, "invalid json", 0, none⟩, s2)
          | some jsonResponse => (validateSuccessBody jsonResponse status, s2)
  | fuel + 1, Call.ensure, s =>
    -- client.ts 75-78: refresh-token admissibility check
    match s.store.refreshToken with
    | none => (Except.error noValidRefreshError, s)
    | some _ =>
      if isRefreshTokenValidF s.store now = false then
        (Except.error noValidRefreshError, s)
      else
        -- client.ts 81-102: issue the renewal request and store the pair
        match runF now fuel (Call.req "/auth/refresh" true) s with
        | (Except.error e, s1) => (Except.error e, s1)
        | (Except.ok response, s1) =>
          match response.success, response.data with
          | JsField.bool true, some d =>
            (Except.ok response,
             { s1 with store := setRefreshTokenS (setAuthTokenS s1.store d.accessToken) d.refreshToken })
          | _, _ => (Except.error refreshFailedError, s1)

/-- Models `ApiClient.request<T>(endpoint, options, isRetry)`. -/
def requestF (fuel : Nat) (now : Int) (endpoint : String) (isRetry : Bool)
    (s : CState) : Except ApiError ApiBody × CState :=
  runF now fuel (Call.req endpoint isRetry) s

/-- Models `ApiClient.ensureValidToken()`. -/
def ensureValidTokenF (fuel : Nat) (now : Int) (s : CState) :
    Except ApiError ApiBody × CState :=
  runF now fuel Call.ensure s

/-- The `if (response.success && response.data)` store-the-pair step shared
verbatim by `login` (client.ts 222-230), `register` (241-245) and the
public `refreshToken` (265-270): on a successful response carrying data,
both cookies are overwritten with the new pair; otherwise the response is
passed through untouched. -/
def storePairOnSuccess (r : Except ApiError ApiBody × CState) :
    Except ApiError ApiBody × CState :=
  match r with
  | (Except.error e, s1) => (Except.error e, s1)
  | (Except.ok response, s1) =>
    match response.success, response.data with
    | JsField.bool true, some d =>
      (Except.ok response,
       { s1 with store := setRefreshTokenS (setAuthTokenS s1.store d.accessToken) d.refreshToken })
    | _, _ => (Except.ok response, s1)

/-- Models `ApiClient.login(data)` (client.ts 216-233): request, then store
the token pair when `response.success && response.data`. -/
def loginF (fuel : Nat) (now : Int) (s : CState) : Except ApiError ApiBody × CState :=
  storePairOnSuccess (runF now fuel (Call.req "/auth/login" false) s)

/-- Models `ApiClient.register(data)` (client.ts 235-248). -/
def registerF (fuel : Nat) (now : Int) (s : CState) : Except ApiError ApiBody × CState :=
  storePairOnSuccess (runF now fuel (Call.req "/auth/register" false) s)

/-- Models the public `ApiClient.refreshToken()` (client.ts 250-273). -/
def refreshTokenApiF (fuel : Nat) (now : Int) (s : CState) :
    Except ApiError ApiBody × CState :=
  match s.store.refreshToken with
  | none => (Except.error noValidRefreshError, s)
  | some _ =>
    if isRefreshTokenValidF s.store now = false then
      (Except.error noValidRefreshError, s)
    else
      storePairOnSuccess (runF now fuel (Call.req "/auth/refresh" true) s)

/-! ## Paired token updates (C9) -/

/-- How a run may change the cookie store: not at all, both cookies cleared
together (`removeAuthTokens`), or both cookies overwritten together with
the access/refresh pair of a single `AuthResponse` payload.  There is no
fourth option — in particular no single-cookie write. -/
def PairedFrom (st st' : Store) : Prop :=
  st' = st ∨ st' = ⟨none, none⟩ ∨
  ∃ d : AuthData, st' = ⟨some d.accessToken, some d.refreshToken⟩

/-! ## The auth store's `checkAuth` (src/lib/providers.tsx, lines 219-246) -/

/-- The slice of the Zustand auth store that `checkAuth` reads and writes:
the `isAuthenticated` flag and the cookie store it consults. -/
structure AuthSnap where
  isAuthenticated : Bool
  store : Store
deriving DecidableEq, Repr

/-- Models `clearAuth()` (providers.tsx 200-209): removes both cookies and
resets the flag. -/
def clearAuthF (a : AuthSnap) : AuthSnap :=
  ⟨false, removeAuthTokensS a.store⟩

/-- Models `checkAuth()` (providers.tsx 219-246): reads the auth-token
cookie and the refresh-token validity; if the refresh token is not valid,
clears the session when previously authenticated and returns false;
otherwise computes `!!token || hasValidRefreshToken` (necessarily true at
that point) and clears only if that is false while previously
authenticated (dead code kept for fidelity). -/
def checkAuthF (now : Int) (a : AuthSnap) : Bool × AuthSnap :=
  let token := a.store.authToken
  let hasValidRefreshToken := isRefreshTokenValidF a.store now
  if hasValidRefreshToken = false then
    (false, if a.isAuthenticated = true then clearAuthF a else a)
  else
    let isAuth := token.isSome || hasValidRefreshToken
    (isAuth, if isAuth = false ∧ a.isAuthenticated = true then clearAuthF a else a)

/-! ## Concurrent renewal coalescing (client.ts 62-103)

Small-step semantics of concurrent `ensureValidToken()` callers in the
single-threaded event loop.  Each atomic segment of the source between two
`await` suspension points is one step.  `this.refreshPromise` is explicit:
promises are numbered in creation order, and creating a promise is issuing
the network renewal request (client.ts 81-88 runs synchronously from the
guard check to the `this.request` call, so guard-check-then-set is one
step, exactly as in the event loop).  The settlement outcome is chosen by
the environment; the claim C2 counterexample separately shows the outcome
it uses is producible by `request`. -/

/-- Settlement of the in-flight refresh promise: it either fulfills with
the body `request` resolved with, or rejects with the thrown `ApiError`. -/
inductive PromiseOutcome
  | fulfilled (body : ApiBody)
  | rejected (e : ApiError)
deriving DecidableEq, Repr

/-- A numbered renewal request: still in flight, or settled. -/
inductive PromiseState
  | pending
  | settled (o : PromiseOutcome)
deriving DecidableEq, Repr

/-- What one caller of `ensureValidToken` observes: a normal return, or a
thrown `ApiError`. -/
inductive EnsureOutcome
  | ok
  | err (e : ApiError)
deriving DecidableEq, Repr

/-- Where one caller of `ensureValidToken` stands: not yet entered, parked
on an in-flight promise (client.ts 70-73), awaiting its own freshly issued
renewal request (client.ts 81-91), or done. -/
inductive CallerPhase
  | idle
  | waitingOn (p : Nat)
  | initiating (p : Nat)
  | finished (r : EnsureOutcome)
deriving DecidableEq, Repr

/-- The `response.success && response.data` test of client.ts line 92
(`success` is a boolean here: `request` validated the format before
resolving). -/
def goodAuthBody (b : ApiBody) : Bool :=
  (b.success == JsField.bool true) && b.data.isSome

/-- Store effect of the initiator resuming after its promise settles
(client.ts 90-99): on `success && data` both cookies are written with the
new pair; on any other outcome nothing is stored. -/
def applyOutcomeStore (st : Store) : PromiseOutcome → Store
  | PromiseOutcome.fulfilled body =>
    match body.data with
    | some d =>
      if body.success == JsField.bool true then
        setRefreshTokenS (setAuthTokenS st d.accessToken) d.refreshToken
      else st
    | none => st
  | PromiseOutcome.rejected _ => st

/-- Result observed by the caller that started the renewal (client.ts
90-102): a rejection propagates; a fulfillment without `success && data`
becomes the thrown `TOKEN_EXPIRED` error; otherwise success. -/
def initiatorResult : PromiseOutcome → EnsureOutcome
  | PromiseOutcome.fulfilled body =>
    if goodAuthBody body then EnsureOutcome.ok else EnsureOutcome.err refreshFailedError
  | PromiseOutcome.rejected e => EnsureOutcome.err e

/-- Result observed by a coalesced waiter (client.ts 70-73: `await
this.refreshPromise; return;`): success whenever the promise fulfills —
the waiter performs no validation of the resolved body — and the
rejection error otherwise. -/
def waiterResult : PromiseOutcome → EnsureOutcome
  | PromiseOutcome.fulfilled _ => EnsureOutcome.ok
  | PromiseOutcome.rejected e => EnsureOutcome.err e

/-- Global state: the two coalescing fields of `ApiClient`
(`isRefreshing`, `refreshPromise`), the promises created so far, the
callers, and the cookie store. -/
structure ConcState where
  isRefreshing : Bool
  refreshPromise : Option Nat
  promises : List PromiseState
  callers : List CallerPhase
  store : Store
deriving DecidableEq, Repr

/-- One atomic event-loop segment.  Entry segments follow client.ts 69-88
in source order: the coalescing fast path is checked first, then
refresh-token admissibility, then the renewal request is issued with the
flag and promise set in the same segment (no `await` in between). -/
inductive ConcStep (now : Int) : ConcState → ConcState → Prop
  | enterCoalesce (s : ConcState) (i p : Nat)
      (hi : s.callers.get? i = some CallerPhase.idle)
      (hr : s.isRefreshing = true)
      (hp : s.refreshPromise = some p) :
      ConcStep now s { s with callers := s.callers.set i (CallerPhase.waitingOn p) }
  | enterInvalid (s : ConcState) (i : Nat)
      (hi : s.callers.get? i = some CallerPhase.idle)
      (hg : ¬ (s.isRefreshing = true ∧ s.refreshPromise.isSome = true))
      (hv : s.store.refreshToken = none ∨ isRefreshTokenValidF s.store now = false) :
      ConcStep now s
        { s with callers :=
            s.callers.set i (CallerPhase.finished (EnsureOutcome.err noValidRefreshError)) }
  | enterBegin (s : ConcState) (i : Nat)
      (hi : s.callers.get? i = some CallerPhase.idle)
      (hg : ¬ (s.isRefreshing = true ∧ s.refreshPromise.isSome = true))
      (hv : s.store.refreshToken ≠ none ∧ isRefreshTokenValidF s.store now = true) :
      ConcStep now s
        { s with
          promises := s.promises ++ [PromiseState.pending],
          isRefreshing := true,
          refreshPromise := some s.promises.length,
          callers := s.callers.set i (CallerPhase.initiating s.promises.length) }
  | settle (s : ConcState) (p : Nat) (o : PromiseOutcome)
      (hp : s.promises.get? p = some PromiseState.pending) :
      ConcStep now s { s with promises := s.promises.set p (PromiseState.settled o) }
  | initiatorDone (s : ConcState) (i p : Nat) (o : PromiseOutcome)
      (hi : s.callers.get? i = some (CallerPhase.initiating p))
      (hp : s.promises.get? p = some (PromiseState.settled o)) :
      ConcStep now s
        { s with
          isRefreshing := false,
          refreshPromise := none,
          store := applyOutcomeStore s.store o,
          callers := s.callers.set i (CallerPhase.finished (initiatorResult o)) }
  | waiterDone (s : ConcState) (i p : Nat) (o : PromiseOutcome)
      (hi : s.callers.get? i = some (CallerPhase.waitingOn p))
      (hp : s.promises.get? p = some (PromiseState.settled o)) :
      ConcStep now s
        { s with callers := s.callers.set i (CallerPhase.finished (waiterResult o)) }

/-- Reachability by a finite sequence of steps. -/
inductive ConcReach (now : Int) (s0 : ConcState) : ConcState → Prop
  | refl : ConcReach now s0 s0
  | tail {s s' : ConcState} : ConcReach now s0 s → ConcStep now s s' → ConcReach now s0 s'

/-- The quiescent client: no renewal in flight, `k` callers yet to enter. -/
def initConc (st : Store) (k : Nat) : ConcState :=
  ⟨false, none, [], List.replicate k CallerPhase.idle, st⟩

/-- The machine invariant: the flag mirrors promise presence; the current
promise index is in range; every pending promise is the current one;
every initiator is awaiting the current promise; at most one caller is an
initiator; every waiter waits on an actually-created renewal request. -/
structure ConcInv (s : ConcState) : Prop where
  flagIff : s.isRefreshing = s.refreshPromise.isSome
  bound : ∀ p : Nat, s.refreshPromise = some p → p < s.promises.length
  pendCur : ∀ p : Nat, s.promises.get? p = some PromiseState.pending → s.refreshPromise = some p
  initCur : ∀ i p : Nat, s.callers.get? i = some (CallerPhase.initiating p) →
      s.refreshPromise = some p
  initUniq : ∀ i j p q : Nat, s.callers.get? i = some (CallerPhase.initiating p) →
      s.callers.get? j = some (CallerPhase.initiating q) → i = j
  waitBound : ∀ i p : Nat, s.callers.get? i = some (CallerPhase.waitingOn p) →
      p < s.promises.length

/-- A store with a valid refresh token (expiring at 100), used by the
concrete renewal traces below. -/
def stWitness : Store := ⟨none, some (some ⟨some 100⟩)⟩

/-- A refresh response body with `success: false` and no error envelope:
`request` resolves (rather than throws) on it, so the refresh promise
fulfills with it, yet `ensureValidToken`'s own validation rejects it. -/
def badRefreshBody : ApiBody := ⟨JsField.bool false, none, none⟩

/-- C7: `isTokenExpiredOrExpiringSoon` is true exactly for absent,
undecodable or exp-less tokens and for expiration claims at most
`now + 120`; the boundary sits at 120 seconds (true at `now + 119`,
false at `now + 121`). -/
theorem c7_expiry_buffer_boundary (now : Int) (hn : 0 ≤ now) :
    isTokenExpiredOrExpiringSoonF none now = true ∧
    isTokenExpiredOrExpiringSoonF (some none) now = true ∧
    isTokenExpiredOrExpiringSoonF (some (some ⟨none⟩)) now = true ∧
    (∀ e : Int, isTokenExpiredOrExpiringSoonF (some (some ⟨some e⟩)) now = true
      ↔ e ≤ now + 120) ∧
    isTokenExpiredOrExpiringSoonF (some (some ⟨some (now + 119)⟩)) now = true ∧
    isTokenExpiredOrExpiringSoonF (some (some ⟨some (now + 121)⟩)) now = false := by
  refine ⟨rfl, rfl, rfl, ?_, ?_, ?_⟩
  · intro e
    simp only [isTokenExpiredOrExpiringSoonF]
    by_cases he : e = 0
    · subst he; simp; omega
    · simp [he]
  · simp only [isTokenExpiredOrExpiringSoonF]
    have h119 : ¬ (now + 119 = 0) := by omega
    simp only [h119, if_false]
    simp only [decide_eq_true_eq]
    omega
  · simp only [isTokenExpiredOrExpiringSoonF]
    have h121 : ¬ (now + 121 = 0) := by omega
    simp only [h121, if_false]
    simp only [decide_eq_false_iff_not]
    omega

/-- Witness for C7 at `now = 0`. -/
theorem c7_expiry_buffer_boundary_witness :
    isTokenExpiredOrExpiringSoonF (some (some ⟨some 119⟩)) 0 = true ∧
    isTokenExpiredOrExpiringSoonF (some (some ⟨some 121⟩)) 0 = false :=
  ⟨(c7_expiry_buffer_boundary 0 (by decide)).2.2.2.2.1,
   (c7_expiry_buffer_boundary 0 (by decide)).2.2.2.2.2⟩

/-- C8: refresh-token validity holds iff the cookie is present, decodes,
and its expiration claim is strictly greater than `now`; at exactly `now`
the token is invalid, and a decode failure yields invalid (the helper is a
total function — parse errors are swallowed inside `decodeJWTPayload`). -/
theorem c8_refresh_validity_strict (now : Int) (hn : 0 ≤ now) (st : Store) :
    (isRefreshTokenValidF st now = true ↔
      ∃ e : Int, st.refreshToken = some (some ⟨some e⟩) ∧ now < e) ∧
    (∀ e : Int,
      isRefreshTokenValidF { st with refreshToken := some (some ⟨some e⟩) } now = true
        ↔ now < e) ∧
    isRefreshTokenValidF { st with refreshToken := some (some ⟨some now⟩) } now = false ∧
    isRefreshTokenValidF { st with refreshToken := some none } now = false := by
  have key : ∀ (st' : Store) (e : Int), st'.refreshToken = some (some ⟨some e⟩) →
      (isRefreshTokenValidF st' now = true ↔ now < e) := by
    intro st' e he
    simp only [isRefreshTokenValidF, he]
    by_cases h0 : e = 0
    · subst h0; simp; omega
    · simp [h0]
  refine ⟨?_, ?_, ?_, ?_⟩
  · constructor
    · intro h
      match hrt : st.refreshToken with
      | none => simp [isRefreshTokenValidF, hrt] at h
      | some none => simp [isRefreshTokenValidF, hrt] at h
      | some (some ⟨none⟩) => simp [isRefreshTokenValidF, hrt] at h
      | some (some ⟨some e⟩) => exact ⟨e, rfl, (key st e hrt).mp h⟩
    · rintro ⟨e, he, hlt⟩
      exact (key st e he).mpr hlt
  · intro e; exact key _ e rfl
  · simp only [isRefreshTokenValidF]
    by_cases h0 : now = 0
    · subst h0; simp
    · simp [h0]
  · simp [isRefreshTokenValidF]

/-- Witness for C8 at `now = 0` with a refresh token expiring at 100. -/
theorem c8_refresh_validity_strict_witness :
    isRefreshTokenValidF { authToken := none, refreshToken := some (some ⟨some 100⟩) } 0 = true ∧
    isRefreshTokenValidF { authToken := none, refreshToken := some (some ⟨some 0⟩) } 0 = false :=
  ⟨((c8_refresh_validity_strict 0 (by decide) ⟨none, none⟩).2.1 100).mpr (by decide),
   (c8_refresh_validity_strict 0 (by decide) ⟨none, none⟩).2.2.1⟩

/-- C4 counterexample: a 2xx body declaring `success: true` while also
carrying an `error` payload is returned as a success by the response
validation (client.ts 188-198 only rejects `!success && error`), contrary
to the claim that it is still treated as a failure. -/
theorem c4_counterexample :
    validateSuccessBody ⟨JsField.bool true, some ⟨"INTERNAL_ERROR", "boom", none⟩, none⟩ 200
      = Except.ok ⟨JsField.bool true, some ⟨"INTERNAL_ERROR", "boom", none⟩, none⟩ := rfl

/-- C4 (amended): a 2xx response body is treated as successful only if it
declares a boolean `success` flag — a missing or non-boolean flag fails
with `NETWORK_ERROR` — and a `success: false` body with an error payload
fails with that error; but a body declaring `success: true` is returned as
a success even when it also carries an error payload.  The final conjunct
ties the validation into `request`: a 2xx JSON body is handled exactly by
`validateSuccessBody`. -/
theorem c4_success_flag_amended (now : Int) (status : Nat) (b : ApiBody) :
    (b.success = JsField.missing →
      validateSuccessBody b status = Except.error (invalidFormatError status)) ∧
    (b.success = JsField.nonBool →
      validateSuccessBody b status = Except.error (invalidFormatError status)) ∧
    (b.success = JsField.bool true → validateSuccessBody b status = Except.ok b) ∧
    (∀ e : ApiErrObj, b.success = JsField.bool false → b.error = some e →
      validateSuccessBody b status = Except.error ⟨e.code, e.message, status, e.details⟩) ∧
    (b.success = JsField.bool false → b.error = none →
      validateSuccessBody b status = Except.ok b) ∧
    (∀ (fuel : Nat) (ep : String) (retry : Bool) (s : CState) (stx : String)
        (rest : List FetchResult),
      isTokenExpiredOrExpiringSoonF s.store.authToken now = false →
      s.fetches = FetchResult.resp status stx (some b) :: rest →
      200 ≤ status → status < 300 →
      requestF (fuel + 1) now ep retry s =
        (validateSuccessBody b status, { s with fetches := rest, log := s.log ++ [ep] })) := by
  refine ⟨?_, ?_, ?_, ?_, ?_, ?_⟩
  · intro h; simp [validateSuccessBody, h]
  · intro h; simp [validateSuccessBody, h]
  · intro h; simp [validateSuccessBody, h]
  · intro e h1 h2; simp [validateSuccessBody, h1, h2]
  · intro h1 h2; simp [validateSuccessBody, h1, h2]
  · intro fuel ep retry s stx rest hpre hf h1 h2
    simp only [requestF, runF]
    by_cases hep : ep ≠ "/auth/refresh" ∧ ep ≠ "/auth/login" ∧ ep ≠ "/auth/register"
    · rw [if_pos hep, if_neg (by simp [hpre])]
      simp only [doFetch, hf]
      rw [if_neg (by omega)]
    · rw [if_neg hep]
      simp only [doFetch, hf]
      rw [if_neg (by omega)]

/-- Witness for C4's amended theorem: a missing `success` flag fails with
the invalid-format error. -/
theorem c4_success_flag_amended_witness :
    validateSuccessBody ⟨JsField.missing, none, none⟩ 200
      = Except.error (invalidFormatError 200) :=
  (c4_success_flag_amended 0 200 ⟨JsField.missing, none, none⟩).1 rfl

/-- C5: when the refresh token is absent or invalid (and the client is
quiescent, so no renewal is in flight), `ensureValidToken` fails with the
`INVALID_TOKEN` 401 error and the state is returned unchanged: no fetch is
consumed and the fetch log does not grow, i.e. no network renewal request
is issued. -/
theorem c5_invalid_refresh_no_network (fuel : Nat) (now : Int) (s : CState)
    (h : s.store.refreshToken = none ∨ isRefreshTokenValidF s.store now = false) :
    ensureValidTokenF (fuel + 1) now s = (Except.error noValidRefreshError, s) := by
  match hrt : s.store.refreshToken with
  | none => simp only [ensureValidTokenF, runF, hrt]
  | some t =>
    have hv : isRefreshTokenValidF s.store now = false := by
      rcases h with h | h
      · rw [hrt] at h; exact absurd h (by simp)
      · exact h
    simp only [ensureValidTokenF, runF, hrt]
    rw [if_pos hv]

/-- Witness for C5: an absent refresh token. -/
theorem c5_invalid_refresh_no_network_witness :
    ensureValidTokenF 1 0 ⟨⟨none, none⟩, [], []⟩
      = (Except.error noValidRefreshError, ⟨⟨none, none⟩, [], []⟩) :=
  c5_invalid_refresh_no_network 0 0 ⟨⟨none, none⟩, [], []⟩ (Or.inl rfl)

/-- C10: a non-2xx response whose body does not parse as JSON makes
`request` fail immediately with `NETWORK_ERROR` carrying the HTTP status
(client.ts 144-147); exactly one fetch is consumed and the log grows only
by the endpoint itself, so for a 401 with a non-JSON body no renewal call
is made and the request is not retried. -/
theorem c10_nonjson_error_no_retry (fuel : Nat) (now : Int) (endpoint : String)
    (isRetry : Bool) (s : CState) (status : Nat) (statusText : String)
    (rest : List FetchResult)
    (hpre : isTokenExpiredOrExpiringSoonF s.store.authToken now = false)
    (hf : s.fetches = FetchResult.resp status statusText none :: rest)
    (hs : ¬ (200 ≤ status ∧ status < 300)) :
    requestF (fuel + 1) now endpoint isRetry s =
      (Except.error ⟨networkErrorCode,
        (if statusText = "" then "Network error occurred" else statusText), status, none⟩,
       { s with fetches := rest, log := s.log ++ [endpoint] }) := by
  simp only [requestF, runF]
  by_cases hep : endpoint ≠ "/auth/refresh" ∧ endpoint ≠ "/auth/login" ∧ endpoint ≠ "/auth/register"
  · rw [if_pos hep, if_neg (by simp [hpre])]
    simp only [doFetch, hf]
    rw [if_pos hs]
  · rw [if_neg hep]
    simp only [doFetch, hf]
    rw [if_pos hs]

/-- Witness for C10: a 401 with a non-JSON body surfaces `NETWORK_ERROR`
with status 401 and consumes only the one fetch. -/
theorem c10_nonjson_error_no_retry_witness :
    requestF 1 0 "/devices" false
        ⟨⟨some (some ⟨some 10000⟩), some (some ⟨some 99999⟩)⟩,
         [FetchResult.resp 401 "" none], []⟩
      = (Except.error ⟨networkErrorCode, "Network error occurred", 401, none⟩,
         ⟨⟨some (some ⟨some 10000⟩), some (some ⟨some 99999⟩)⟩, [], ["/devices"]⟩) :=
  c10_nonjson_error_no_retry 0 0 "/devices" false
    ⟨⟨some (some ⟨some 10000⟩), some (some ⟨some 99999⟩)⟩,
     [FetchResult.resp 401 "" none], []⟩ 401 "" []
    (by decide) rfl (by omega)

/-- C6: for a protected-endpoint request (not login/register/refresh, not
already a retry) that receives a 401 with a JSON body: (1) if the renewal
fails, the client clears both tokens and fails with the SessionExpired
error, without retrying; (2) if the renewal succeeds, the original call is
retried exactly once, with `isRetry = true`; (3) a retried call that
receives a second 401 surfaces the server's error directly — one fetch, no
renewal, no further retry. -/
theorem c6_unauthorized_renew_retry_once (fuel : Nat) (now : Int) (ep : String)
    (s : CState) (b : ApiBody) (st1 : String) (rest : List FetchResult)
    (hep1 : ep ≠ "/auth/refresh") (hep2 : ep ≠ "/auth/login") (hep3 : ep ≠ "/auth/register")
    (htok : isTokenExpiredOrExpiringSoonF s.store.authToken now = false)
    (hf : s.fetches = FetchResult.resp 401 st1 (some b) :: rest) :
    (∀ (e : ApiError) (s3 : CState),
      runF now fuel Call.ensure { s with fetches := rest, log := s.log ++ [ep] }
          = (Except.error e, s3) →
      requestF (fuel + 1) now ep false s =
        (Except.error sessionExpiredError, { s3 with store := removeAuthTokensS s3.store })) ∧
    (∀ (r : ApiBody) (s3 : CState),
      runF now fuel Call.ensure { s with fetches := rest, log := s.log ++ [ep] }
          = (Except.ok r, s3) →
      requestF (fuel + 1) now ep false s = runF now fuel (Call.req ep true) s3) ∧
    (∀ (s' : CState) (st2 : String) (b2 : ApiBody) (e2 : ApiErrObj)
        (rest2 : List FetchResult),
      s'.fetches = FetchResult.resp 401 st2 (some b2) :: rest2 →
      b2.error = some e2 →
      isTokenExpiredOrExpiringSoonF s'.store.authToken now = false →
      requestF (fuel + 1) now ep true s' =
        (Except.error ⟨e2.code, e2.message, 401, e2.details⟩,
         { s' with fetches := rest2, log := s'.log ++ [ep] })) := by
  refine ⟨?_, ?_, ?_⟩
  · intro e s3 he
    simp only [requestF, runF]
    rw [if_pos ⟨hep1, hep2, hep3⟩, if_neg (by simp [htok])]
    simp only [doFetch, hf]
    rw [if_pos (by omega), if_pos (by simp [hep1, hep2, hep3]), he]
  · intro r s3 he
    simp only [requestF, runF]
    rw [if_pos ⟨hep1, hep2, hep3⟩, if_neg (by simp [htok])]
    simp only [doFetch, hf]
    rw [if_pos (by omega), if_pos (by simp [hep1, hep2, hep3]), he]
  · intro s' st2 b2 e2 rest2 hf2 he2 htok2
    simp only [requestF, runF]
    rw [if_pos ⟨hep1, hep2, hep3⟩, if_neg (by simp [htok2])]
    simp only [doFetch, hf2]
    rw [if_pos (by omega), if_neg (by simp), he2]

/-- Witness for C6: a 401 on a protected endpoint with no refresh token —
the renewal fails, both cookies are cleared, and the call fails with the
SessionExpired error after the single original fetch. -/
theorem c6_unauthorized_renew_retry_once_witness :
    requestF 2 0 "/devices" false
        ⟨⟨some (some ⟨some 10000⟩), none⟩,
         [FetchResult.resp 401 "" (some ⟨JsField.bool false, none, none⟩)], []⟩
      = (Except.error sessionExpiredError,
         ⟨⟨none, none⟩, [], ["/devices"]⟩) :=
  (c6_unauthorized_renew_retry_once 1 0 "/devices"
      ⟨⟨some (some ⟨some 10000⟩), none⟩,
       [FetchResult.resp 401 "" (some ⟨JsField.bool false, none, none⟩)], []⟩
      ⟨JsField.bool false, none, none⟩ "" []
      (by decide) (by decide) (by decide) (by decide) rfl).1
    noValidRefreshError ⟨⟨some (some ⟨some 10000⟩), none⟩, [], ["/devices"]⟩ rfl

theorem pairedFrom_refl (st : Store) : PairedFrom st st := Or.inl rfl

theorem pairedFrom_trans {a b c : Store} (h1 : PairedFrom a b) (h2 : PairedFrom b c) :
    PairedFrom a c := by
  rcases h2 with rfl | h | ⟨d, rfl⟩
  · exact h1
  · exact Or.inr (Or.inl h)
  · exact Or.inr (Or.inr ⟨d, rfl⟩)

theorem pairedFrom_clear (a : Store) (b : Store) : PairedFrom a (removeAuthTokensS b) :=
  Or.inr (Or.inl rfl)

theorem pairedFrom_setPair (a b : Store) (d : AuthData) :
    PairedFrom a (setRefreshTokenS (setAuthTokenS b d.accessToken) d.refreshToken) :=
  Or.inr (Or.inr ⟨d, rfl⟩)

theorem doFetch_store (endpoint : String) (s : CState) :
    (doFetch endpoint s).2.store = s.store := by
  simp only [doFetch]; split <;> rfl

/-- Every run of the interpreter changes the store only in paired ways. -/
theorem runF_paired (now : Int) :
    ∀ (fuel : Nat) (c : Call) (s : CState),
      PairedFrom s.store ((runF now fuel c s).2).store := by
  intro fuel
  induction fuel with
  | zero => intro c s; exact pairedFrom_refl _
  | succ n ih =>
    intro c s
    cases c with
    | ensure =>
      simp only [runF]
      split
      · exact pairedFrom_refl _
      · split
        · exact pairedFrom_refl _
        · rcases hre : runF now n (Call.req "/auth/refresh" true) s with ⟨re, s1⟩
          have h1 : PairedFrom s.store s1.store := by
            have h0 := ih (Call.req "/auth/refresh" true) s
            rw [hre] at h0; exact h0
          cases re with
          | error e => exact h1
          | ok response =>
            rcases response with ⟨succ, err, dat⟩
            rcases succ with _ | _ | b
            · exact h1
            · exact h1
            · rcases dat with _ | d
              · cases b
                · exact h1
                · exact h1
              · cases b
                · exact h1
                · exact pairedFrom_setPair _ _ d
    | req endpoint isRetry =>
      simp only [runF]
      split
      -- the pre-request token check failed: the state was possibly cleared
      next e s1 heq =>
        show PairedFrom s.store s1.store
        split at heq
        · split at heq
          · split at heq
            · simp at heq
            · rename_i a0 s1p heq2
              injection heq with hA hB
              subst hB
              exact pairedFrom_clear s.store s1p.store
          · simp at heq
        · simp at heq
      -- the pre-request token check passed with state s1
      next a s1 heq =>
        have h1 : PairedFrom s.store s1.store := by
          split at heq
          · split at heq
            · split at heq
              · next heq2 =>
                injection heq with hA hB
                subst hB
                have h0 := ih Call.ensure s
                rw [heq2] at h0
                exact h0
              · simp at heq
            · injection heq with hA hB
              subst hB
              exact pairedFrom_refl _
          · injection heq with hA hB
            subst hB
            exact pairedFrom_refl _
        clear heq
        -- the fetch itself never touches the store
        split
        next msg s2 heq2 =>
          show PairedFrom s.store s2.store
          rw [show s2.store = s1.store from by rw [← doFetch_store endpoint s1, heq2]]
          exact h1
        next status statusText body s2 heq2 =>
          have hs2 : s2.store = s1.store := by rw [← doFetch_store endpoint s1, heq2]
          split
          · -- non-2xx response
            split
            · show PairedFrom s.store s2.store
              rw [hs2]; exact h1
            · split
              · -- 401 branch: a renewal, then possibly a retry
                split
                next rb s3 heq3 =>
                  have h3 : PairedFrom s.store s3.store := by
                    have h0 := ih Call.ensure s2
                    rw [heq3] at h0
                    exact pairedFrom_trans (hs2 ▸ h1) h0
                  exact pairedFrom_trans h3 (ih (Call.req endpoint true) s3)
                next err s3 heq3 =>
                  show PairedFrom s.store (removeAuthTokensS s3.store)
                  exact pairedFrom_clear _ _
              · -- standardized error path: state s2 unchanged
                split
                · show PairedFrom s.store s2.store
                  rw [hs2]; exact h1
                · show PairedFrom s.store s2.store
                  rw [hs2]; exact h1
          · -- 2xx response: only the body is validated, state s2 unchanged
            split
            · show PairedFrom s.store s2.store
              rw [hs2]; exact h1
            · show PairedFrom s.store s2.store
              rw [hs2]; exact h1

/-- Passing a run result through the shared store-the-pair step keeps the
store change paired. -/
theorem storePairOnSuccess_paired {a : Store} {r : Except ApiError ApiBody × CState}
    (h : PairedFrom a r.2.store) :
    PairedFrom a ((storePairOnSuccess r).2).store := by
  rcases r with ⟨re, s1⟩
  cases re with
  | error e => exact h
  | ok response =>
    rcases response with ⟨succ, err, dat⟩
    rcases succ with _ | _ | b
    · exact h
    · exact h
    · rcases dat with _ | d
      · cases b
        · exact h
        · exact h
      · cases b
        · exact h
        · exact pairedFrom_setPair _ _ d

/-- C9: every operation that can touch the token store — `request` (with
its pre-request refresh and 401 retry), `ensureValidToken`, `login`,
`register` and the public `refreshToken` — either leaves both cookies
unchanged, clears both together, or overwrites both together with the pair
from one successful auth response; no outcome writes one token without the
other. -/
theorem c9_tokens_updated_as_pair (fuel : Nat) (now : Int) (ep : String)
    (retry : Bool) (s : CState) :
    PairedFrom s.store ((requestF fuel now ep retry s).2).store ∧
    PairedFrom s.store ((ensureValidTokenF fuel now s).2).store ∧
    PairedFrom s.store ((loginF fuel now s).2).store ∧
    PairedFrom s.store ((registerF fuel now s).2).store ∧
    PairedFrom s.store ((refreshTokenApiF fuel now s).2).store := by
  refine ⟨runF_paired now fuel _ s, runF_paired now fuel _ s, ?_, ?_, ?_⟩
  · exact storePairOnSuccess_paired (runF_paired now fuel (Call.req "/auth/login" false) s)
  · exact storePairOnSuccess_paired (runF_paired now fuel (Call.req "/auth/register" false) s)
  · simp only [refreshTokenApiF]
    split
    · exact pairedFrom_refl _
    · split
      · exact pairedFrom_refl _
      · exact storePairOnSuccess_paired (runF_paired now fuel (Call.req "/auth/refresh" true) s)

/-- C3 counterexample: with an access token present but no refresh token,
`checkAuth` returns false, refuting the claimed "valid RefreshToken OR
present AccessToken" characterization (the access-token disjunct is
unreachable: the function returns early whenever the refresh token is
invalid). -/
theorem c3_counterexample :
    (checkAuthF 1000 ⟨false, ⟨some (some ⟨some 999999⟩), none⟩⟩).1 = false ∧
    ((⟨false, ⟨some (some ⟨some 999999⟩), none⟩⟩ : AuthSnap).store.authToken.isSome ||
      isRefreshTokenValidF (⟨false, ⟨some (some ⟨some 999999⟩), none⟩⟩ : AuthSnap).store 1000)
      = true := by
  constructor
  · rfl
  · rfl

/-- C3 (amended): `checkAuth()` returns true iff a valid refresh token
exists — an access token alone never makes it return true; when the
refresh token is invalid or absent while previously authenticated, it
clears the session (both cookies removed, flag reset) and returns false;
when the refresh token is valid the state is left untouched. -/
theorem c3_checkauth_refresh_only (now : Int) (a : AuthSnap) :
    ((checkAuthF now a).1 = isRefreshTokenValidF a.store now) ∧
    (isRefreshTokenValidF a.store now = false → a.isAuthenticated = true →
      (checkAuthF now a).2 = clearAuthF a) ∧
    (isRefreshTokenValidF a.store now = false → a.isAuthenticated = false →
      (checkAuthF now a).2 = a) ∧
    (isRefreshTokenValidF a.store now = true → (checkAuthF now a).2 = a) := by
  refine ⟨?_, ?_, ?_, ?_⟩
  · by_cases hv : isRefreshTokenValidF a.store now = false
    · simp [checkAuthF, hv]
    · have hv' : isRefreshTokenValidF a.store now = true := by
        cases h : isRefreshTokenValidF a.store now
        · exact absurd h hv
        · rfl
      simp [checkAuthF, hv', hv]
  · intro hv ha
    simp [checkAuthF, hv, ha]
  · intro hv ha
    simp [checkAuthF, hv, ha]
  · intro hv
    simp [checkAuthF, hv]

/-- Witness for C3's amended theorem: previously authenticated with an
expired refresh token, `checkAuth` clears the session. -/
theorem c3_checkauth_refresh_only_witness :
    (checkAuthF 1000 ⟨true, ⟨none, some (some ⟨some 5⟩)⟩⟩).2
      = clearAuthF ⟨true, ⟨none, some (some ⟨some 5⟩)⟩⟩ :=
  (c3_checkauth_refresh_only 1000 ⟨true, ⟨none, some (some ⟨some 5⟩)⟩⟩).2.1 rfl rfl

/-! Helper facts about `List.get?` used by the machine invariant. -/

theorem listGetSomeLt {α : Type _} :
    ∀ (l : List α) (i : Nat) (x : α), l.get? i = some x → i < l.length := by
  intro l
  induction l with
  | nil => intro i x h; simp [List.get?] at h
  | cons a t ihl =>
    intro i x h
    cases i with
    | zero => simp [List.length]
    | succ n =>
      have := ihl n x (by simpa [List.get?] using h)
      simpa [List.length] using Nat.succ_lt_succ this

theorem listGetAppendLeft {α : Type _} :
    ∀ (l l' : List α) (n : Nat), n < l.length → (l ++ l').get? n = l.get? n := by
  intro l
  induction l with
  | nil => intro l' n h; simp at h
  | cons a t ihl =>
    intro l' n h
    cases n with
    | zero => rfl
    | succ m =>
      simp only [List.cons_append, List.get?]
      exact ihl l' m (by simpa using h)

theorem listGetSnocLast {α : Type _} :
    ∀ (l : List α) (a : α), (l ++ [a]).get? l.length = some a := by
  intro l
  induction l with
  | nil => intro a; rfl
  | cons b t ihl => intro a; simp only [List.cons_append, List.length_cons, List.get?]; exact ihl a

theorem listGetSnocCases {α : Type _} :
    ∀ (l : List α) (a : α) (n : Nat) (x : α), (l ++ [a]).get? n = some x →
      (n < l.length ∧ l.get? n = some x) ∨ (n = l.length ∧ x = a) := by
  intro l
  induction l with
  | nil =>
    intro a n x h
    cases n with
    | zero =>
      right
      refine ⟨rfl, ?_⟩
      simpa [List.get?] using h.symm
    | succ m => simp [List.get?] at h
  | cons b t ihl =>
    intro a n x h
    cases n with
    | zero =>
      left
      exact ⟨by simp [List.length], by simpa [List.get?] using h⟩
    | succ m =>
      rcases ihl a m x (by simpa [List.get?] using h) with ⟨h1, h2⟩ | ⟨h1, h2⟩
      · exact Or.inl ⟨by simpa [List.length] using Nat.succ_lt_succ h1, h2⟩
      · exact Or.inr ⟨by simp [List.length, h1], h2⟩

theorem listGetReplicate {α : Type _} :
    ∀ (k i : Nat) (a x : α), (List.replicate k a).get? i = some x → x = a := by
  intro k
  induction k with
  | zero => intro i a x h; simp [List.replicate, List.get?] at h
  | succ m ihk =>
    intro i a x h
    cases i with
    | zero =>
      simp only [List.replicate, List.get?] at h
      exact (Option.some.inj h).symm
    | succ n => exact ihk n a x (by simpa [List.replicate, List.get?] using h)

theorem concInv_init (st : Store) (k : Nat) : ConcInv (initConc st k) := by
  refine ⟨rfl, ?_, ?_, ?_, ?_, ?_⟩
  · intro p h; exact absurd h (by simp [initConc])
  · intro p h; exact absurd h (by simp [initConc, List.get?])
  · intro i p h; exact absurd (listGetReplicate k i CallerPhase.idle _ h) (by simp)
  · intro i j p q hi hj
    exact absurd (listGetReplicate k i CallerPhase.idle _ hi) (by simp)
  · intro i p h; exact absurd (listGetReplicate k i CallerPhase.idle _ h) (by simp)

theorem concStep_inv {now : Int} {s s' : ConcState}
    (hstep : ConcStep now s s') (inv : ConcInv s) : ConcInv s' := by
  cases hstep with
  | enterCoalesce i p hi hr hp =>
    have hlen : i < s.callers.length := listGetSomeLt _ _ _ hi
    refine ⟨inv.flagIff, inv.bound, inv.pendCur, ?_, ?_, ?_⟩
    · intro j q hj
      by_cases hij : i = j
      · subst hij
        rw [List.get?_set_eq_of_lt _ hlen] at hj
        simp at hj
      · rw [List.get?_set_ne _ _ hij] at hj
        exact inv.initCur j q hj
    · intro j k q r hj hk
      by_cases hij : i = j
      · subst hij; rw [List.get?_set_eq_of_lt _ hlen] at hj; simp at hj
      · by_cases hik : i = k
        · subst hik; rw [List.get?_set_eq_of_lt _ hlen] at hk; simp at hk
        · rw [List.get?_set_ne _ _ hij] at hj
          rw [List.get?_set_ne _ _ hik] at hk
          exact inv.initUniq j k q r hj hk
    · intro j q hj
      by_cases hij : i = j
      · subst hij
        rw [List.get?_set_eq_of_lt _ hlen] at hj
        have : q = p := by
          have := Option.some.inj hj
          cases this; rfl
        subst this
        exact inv.bound q hp
      · rw [List.get?_set_ne _ _ hij] at hj
        exact inv.waitBound j q hj
  | enterInvalid i hi hg hv =>
    have hlen : i < s.callers.length := listGetSomeLt _ _ _ hi
    refine ⟨inv.flagIff, inv.bound, inv.pendCur, ?_, ?_, ?_⟩
    · intro j q hj
      by_cases hij : i = j
      · subst hij; rw [List.get?_set_eq_of_lt _ hlen] at hj; simp at hj
      · rw [List.get?_set_ne _ _ hij] at hj; exact inv.initCur j q hj
    · intro j k q r hj hk
      by_cases hij : i = j
      · subst hij; rw [List.get?_set_eq_of_lt _ hlen] at hj; simp at hj
      · by_cases hik : i = k
        · subst hik; rw [List.get?_set_eq_of_lt _ hlen] at hk; simp at hk
        · rw [List.get?_set_ne _ _ hij] at hj
          rw [List.get?_set_ne _ _ hik] at hk
          exact inv.initUniq j k q r hj hk
    · intro j q hj
      by_cases hij : i = j
      · subst hij; rw [List.get?_set_eq_of_lt _ hlen] at hj; simp at hj
      · rw [List.get?_set_ne _ _ hij] at hj; exact inv.waitBound j q hj
  | enterBegin i hi hg hv =>
    have hlen : i < s.callers.length := listGetSomeLt _ _ _ hi
    have hnone : s.refreshPromise = none := by
      cases hrp : s.refreshPromise with
      | none => rfl
      | some p =>
        exact absurd ⟨by rw [inv.flagIff, hrp]; rfl, by rw [hrp]; rfl⟩ hg
    refine ⟨rfl, ?_, ?_, ?_, ?_, ?_⟩
    · intro p hp
      have : p = s.promises.length := (Option.some.inj hp).symm
      subst this
      simp [List.length_append]
    · intro p hp
      rcases listGetSnocCases s.promises PromiseState.pending p _ hp with ⟨h1, h2⟩ | ⟨h1, h2⟩
      · have := inv.pendCur p h2
        rw [hnone] at this
        exact absurd this (by simp)
      · subst h1; rfl
    · intro j q hj
      by_cases hij : i = j
      · subst hij
        rw [List.get?_set_eq_of_lt _ hlen] at hj
        have : CallerPhase.initiating s.promises.length = CallerPhase.initiating q :=
          Option.some.inj hj
        cases this; rfl
      · rw [List.get?_set_ne _ _ hij] at hj
        have := inv.initCur j q hj
        rw [hnone] at this
        exact absurd this (by simp)
    · intro j k q r hj hk
      by_cases hij : i = j
      · by_cases hik : i = k
        · rw [← hij, ← hik]
        · rw [List.get?_set_ne _ _ hik] at hk
          have := inv.initCur k r hk
          rw [hnone] at this
          exact absurd this (by simp)
      · rw [List.get?_set_ne _ _ hij] at hj
        have := inv.initCur j q hj
        rw [hnone] at this
        exact absurd this (by simp)
    · intro j q hj
      by_cases hij : i = j
      · subst hij; rw [List.get?_set_eq_of_lt _ hlen] at hj; simp at hj
      · rw [List.get?_set_ne _ _ hij] at hj
        have := inv.waitBound j q hj
        simp only [List.length_append, List.length_cons, List.length_nil]
        omega
  | settle p o hp =>
    have hplen : p < s.promises.length := listGetSomeLt _ _ _ hp
    refine ⟨inv.flagIff, ?_, ?_, inv.initCur, inv.initUniq, ?_⟩
    · intro q hq
      have := inv.bound q hq
      simpa [List.length_set] using this
    · intro q hq
      by_cases hpq : p = q
      · subst hpq
        rw [List.get?_set_eq_of_lt _ hplen] at hq
        simp at hq
      · rw [List.get?_set_ne _ _ hpq] at hq
        exact inv.pendCur q hq
    · intro j q hj
      have := inv.waitBound j q hj
      simpa [List.length_set] using this
  | initiatorDone i p o hi hp =>
    have hlen : i < s.callers.length := listGetSomeLt _ _ _ hi
    refine ⟨rfl, ?_, ?_, ?_, ?_, ?_⟩
    · intro q hq; exact absurd hq (by simp)
    · intro q hq
      have h1 := inv.pendCur q hq
      have h2 := inv.initCur i p hi
      rw [h2] at h1
      have : p = q := Option.some.inj h1
      subst this
      rw [hp] at hq
      exact absurd (Option.some.inj hq) (by simp)
    · intro j q hj
      exfalso
      by_cases hij : i = j
      · subst hij; rw [List.get?_set_eq_of_lt _ hlen] at hj; simp at hj
      · rw [List.get?_set_ne _ _ hij] at hj
        exact hij (inv.initUniq i j p q hi hj)
    · intro j k q r hj hk
      exfalso
      by_cases hij : i = j
      · subst hij; rw [List.get?_set_eq_of_lt _ hlen] at hj; simp at hj
      · rw [List.get?_set_ne _ _ hij] at hj
        exact hij (inv.initUniq i j p q hi hj)
    · intro j q hj
      by_cases hij : i = j
      · subst hij; rw [List.get?_set_eq_of_lt _ hlen] at hj; simp at hj
      · rw [List.get?_set_ne _ _ hij] at hj
        exact inv.waitBound j q hj
  | waiterDone i p o hi hp =>
    have hlen : i < s.callers.length := listGetSomeLt _ _ _ hi
    refine ⟨inv.flagIff, inv.bound, inv.pendCur, ?_, ?_, ?_⟩
    · intro j q hj
      by_cases hij : i = j
      · subst hij; rw [List.get?_set_eq_of_lt _ hlen] at hj; simp at hj
      · rw [List.get?_set_ne _ _ hij] at hj; exact inv.initCur j q hj
    · intro j k q r hj hk
      by_cases hij : i = j
      · subst hij; rw [List.get?_set_eq_of_lt _ hlen] at hj; simp at hj
      · by_cases hik : i = k
        · subst hik; rw [List.get?_set_eq_of_lt _ hlen] at hk; simp at hk
        · rw [List.get?_set_ne _ _ hij] at hj
          rw [List.get?_set_ne _ _ hik] at hk
          exact inv.initUniq j k q r hj hk
    · intro j q hj
      by_cases hij : i = j
      · subst hij; rw [List.get?_set_eq_of_lt _ hlen] at hj; simp at hj
      · rw [List.get?_set_ne _ _ hij] at hj; exact inv.waitBound j q hj

theorem concReach_inv {now : Int} {st : Store} {k : Nat} {s : ConcState}
    (h : ConcReach now (initConc st k) s) : ConcInv s := by
  induction h with
  | refl => exact concInv_init st k
  | tail hr hs ih => exact concStep_inv hs ih

/-- C1: in every state reachable from a quiescent client by any
interleaving of concurrent `ensureValidToken` callers and network events,
at most one renewal request is pending at any instant (any two pending
promises coincide), and every coalesced waiter is parked on an
actually-issued renewal request.  Later callers never create a second
request while one is in flight. -/
theorem c1_at_most_one_renewal_in_flight (now : Int) (st : Store) (k : Nat)
    (s : ConcState) (h : ConcReach now (initConc st k) s) :
    (∀ p q : Nat, s.promises.get? p = some PromiseState.pending →
      s.promises.get? q = some PromiseState.pending → p = q) ∧
    (∀ i p : Nat, s.callers.get? i = some (CallerPhase.waitingOn p) →
      p < s.promises.length) := by
  have inv := concReach_inv h
  refine ⟨?_, inv.waitBound⟩
  intro p q hp hq
  have h1 := inv.pendCur p hp
  have h2 := inv.pendCur q hq
  rw [h1] at h2
  exact Option.some.inj h2

/-- Witness for C1: after one caller starts a renewal from the quiescent
two-caller client, promise 0 is the unique pending renewal. -/
theorem c1_at_most_one_renewal_in_flight_witness : (0 : Nat) = 0 :=
  (c1_at_most_one_renewal_in_flight 0 stWitness 2 _
      (ConcReach.tail ConcReach.refl
        (ConcStep.enterBegin (initConc stWitness 2) 0 (by decide) (by decide) (by decide)))).1
    0 0 (by decide) (by decide)

/-- C2 counterexample: a run in which the initiating caller fails with
`TOKEN_EXPIRED` while the coalesced waiter resolves successfully — the
waiter only awaits the promise (client.ts 70-73) and never sees the
initiator's `success && data` validation.  The final conjunct shows the
promise outcome used is producible: `request` on the refresh endpoint
resolves with this body. -/
theorem c2_counterexample :
    (∃ s : ConcState, ConcReach 0 (initConc stWitness 2) s ∧
      s.callers.get? 0 = some (CallerPhase.finished (EnsureOutcome.err refreshFailedError)) ∧
      s.callers.get? 1 = some (CallerPhase.finished EnsureOutcome.ok)) ∧
    (runF 0 2 (Call.req "/auth/refresh" true)
        ⟨stWitness, [FetchResult.resp 200 "" (some badRefreshBody)], []⟩).1
      = Except.ok badRefreshBody := by
  constructor
  · have t1 : ConcReach 0 (initConc stWitness 2)
        ⟨true, some 0, [PromiseState.pending],
         [CallerPhase.initiating 0, CallerPhase.idle], stWitness⟩ :=
      ConcReach.tail ConcReach.refl
        (ConcStep.enterBegin (initConc stWitness 2) 0 (by decide) (by decide) (by decide))
    have t2 : ConcReach 0 (initConc stWitness 2)
        ⟨true, some 0, [PromiseState.pending],
         [CallerPhase.initiating 0, CallerPhase.waitingOn 0], stWitness⟩ :=
      ConcReach.tail t1
        (ConcStep.enterCoalesce _ 1 0 (by decide) (by decide) (by decide))
    have t3 : ConcReach 0 (initConc stWitness 2)
        ⟨true, some 0, [PromiseState.settled (PromiseOutcome.fulfilled badRefreshBody)],
         [CallerPhase.initiating 0, CallerPhase.waitingOn 0], stWitness⟩ :=
      ConcReach.tail t2
        (ConcStep.settle _ 0 (PromiseOutcome.fulfilled badRefreshBody) (by decide))
    have t4 : ConcReach 0 (initConc stWitness 2)
        ⟨false, none, [PromiseState.settled (PromiseOutcome.fulfilled badRefreshBody)],
         [CallerPhase.finished (EnsureOutcome.err refreshFailedError),
          CallerPhase.waitingOn 0], stWitness⟩ :=
      ConcReach.tail t3
        (ConcStep.initiatorDone _ 0 0 (PromiseOutcome.fulfilled badRefreshBody)
          (by decide) (by decide))
    have t5 : ConcReach 0 (initConc stWitness 2)
        ⟨false, none, [PromiseState.settled (PromiseOutcome.fulfilled badRefreshBody)],
         [CallerPhase.finished (EnsureOutcome.err refreshFailedError),
          CallerPhase.finished EnsureOutcome.ok], stWitness⟩ :=
      ConcReach.tail t4
        (ConcStep.waiterDone _ 1 0 (PromiseOutcome.fulfilled badRefreshBody)
          (by decide) (by decide))
    exact ⟨_, t5, by decide, by decide⟩
  · rfl

/-- C2 (amended): when the refresh promise rejects, the initiator and all
coalesced waiters fail with the same error, and when it fulfills with a
`success && data` body all observe success; but when it fulfills with any
other body the initiator throws `TOKEN_EXPIRED` while coalesced waiters
resolve successfully — waiters follow the promise's settlement, not the
initiator's validation, so the two agree exactly when the promise rejects
or fulfills well-formed. -/
theorem c2_waiters_follow_promise_settlement (o : PromiseOutcome) :
    waiterResult o = initiatorResult o ↔
      (∀ b : ApiBody, o = PromiseOutcome.fulfilled b → goodAuthBody b = true) := by
  cases o with
  | fulfilled b =>
    by_cases hg : goodAuthBody b = true
    · constructor
      · intro _ b' hb'
        injection hb' with hb'
        subst hb'
        exact hg
      · intro _
        simp [waiterResult, initiatorResult, hg]
    · constructor
      · intro h
        exfalso
        simp only [waiterResult, initiatorResult] at h
        rw [if_neg hg] at h
        simp [refreshFailedError] at h
      · intro h
        exact absurd (h b rfl) hg
  | rejected e =>
    constructor
    · intro _ b hb
      exact absurd hb (by simp)
    · intro _
      rfl

/-- Witness for C2's amended theorem at a rejected outcome. -/
theorem c2_waiters_follow_promise_settlement_witness :
    waiterResult (PromiseOutcome.rejected noValidRefreshError)
      = initiatorResult (PromiseOutcome.rejected noValidRefreshError) :=
  (c2_waiters_follow_promise_settlement (PromiseOutcome.rejected noValidRefreshError)).mpr
    (fun b hb => absurd hb (by simp))

end EzApi
